import Mathlib

/-!
Shallow embedding of the content generation and structured-response
extraction pipeline of `content_generator.py` (marketing-content
generation assistant), together with proofs of the specified
properties.

Python strings are embedded as `List Char`; the Python string methods
used by the source (`strip`, `lower`, `split`, `replace`, `lstrip`
with a character set, `startswith`, `format`, `join`) are given
executable Lean counterparts below with the same semantics on the
inputs the program uses.  The external model call is an oracle
parameter; the external `json.loads` is modelled by an executable JSON
parser over the JSON fragment relevant here.
-/

namespace ContentGen

/-- Python strings, embedded as lists of characters. -/
abbrev Str := List Char

/-- Characters removed by Python `str.strip()` (ASCII whitespace). -/
def isPySpace (c : Char) : Bool :=
  c = ' ' || c = '\t' || c = '\n' || c = '\r' || c = Char.ofNat 11 || c = Char.ofNat 12

/-- Python `str.lstrip()` with no argument. -/
def lstrip (s : Str) : Str := s.dropWhile isPySpace

/-- Python `str.rstrip()` with no argument. -/
def rstrip (s : Str) : Str := (s.reverse.dropWhile isPySpace).reverse

/-- Python `str.strip()` with no argument. -/
def pyStrip (s : Str) : Str := rstrip (lstrip s)

/-- Python `str.lower()` (the source only lowercases ASCII labels). -/
def lowerStr (s : Str) : Str := s.map Char.toLower

/-- Python `str.split(sep)` for a single-character separator:
keeps empty segments, `"".split(sep) == [""]`. -/
def splitOnChar (sep : Char) : Str → List Str
  | [] => [[]]
  | c :: rest =>
    if c = sep then [] :: splitOnChar sep rest
    else
      match splitOnChar sep rest with
      | [] => [[c]]
      | p :: ps => (c :: p) :: ps

/-- Python `str.split('\n')`. -/
def splitNL (s : Str) : List Str := splitOnChar '\n' s

/-- Python `str.split('\n\n')`: split on non-overlapping occurrences of
two consecutive newlines, scanning left to right. -/
def splitNN : Str → List Str
  | [] => [[]]
  | [c] => [[c]]
  | c :: d :: rest =>
    if c = '\n' ∧ d = '\n' then [] :: splitNN rest
    else
      match splitNN (d :: rest) with
      | [] => [[c]]
      | p :: ps => (c :: p) :: ps

/-- Python `str.replace(old, repl)`: replace all non-overlapping
occurrences of `old`, scanning left to right (`old` is never empty in
the source; for empty `old` this model scans without replacing). -/
def pyReplace (old repl : Str) : Str → Str
  | [] => []
  | c :: rest =>
    if h : old ≠ [] ∧ old.isPrefixOf (c :: rest) then
      repl ++ pyReplace old repl ((c :: rest).drop old.length)
    else
      c :: pyReplace old repl rest
termination_by s => s.length
decreasing_by
  · rcases old with _ | ⟨o, os⟩
    · exact absurd rfl h.1
    · simp only [List.length_drop, List.length_cons]
      omega
  · simp

/-- Python `str.lstrip(chars)`: drop leading characters belonging to
the given character set. -/
def pyLstripSet (s chars : Str) : Str := s.dropWhile (fun c => chars.contains c)

/-- Python `str(n)` for a natural number. -/
def natStr (n : Nat) : Str := (Nat.repr n).data

/-- Python `"\n".join(parts)`. -/
def joinNL : List Str → Str
  | [] => []
  | [p] => p
  | p :: rest => p ++ '\n' :: joinNL rest

/-- Python dict assignment `d[k] = v` on an insertion-ordered dict:
replaces the value in place if the key exists, else appends. -/
def dictSet {α : Type} : List (Str × α) → Str → α → List (Str × α)
  | [], k, v => [(k, v)]
  | (k', v') :: rest, k, v =>
    if k' = k then (k, v) :: rest else (k', v') :: dictSet rest k v

/-- Python dict lookup `d[k]` (first matching key). -/
def dictGet {α : Type} : List (Str × α) → Str → Option α
  | [], _ => none
  | (k', v) :: rest, k => if k' = k then some v else dictGet rest k

/-- Python dict lookup with default. -/
def dictGetD (d : List (Str × Str)) (k : Str) (dflt : Str) : Str :=
  (dictGet d k).getD dflt

/-- Opening brace character (used by the `str.format` model). -/
def lbrace : Char := Char.ofNat 123

/-- Closing brace character (used by the `str.format` model). -/
def rbrace : Char := Char.ofNat 125

/-- Python `template.format(**args)` restricted to plain named
placeholders, which is all the source's templates contain (no literal
braces, no format specs). -/
def pyFormat (args : List (Str × Str)) : Str → Str
  | [] => []
  | c :: rest =>
    if c = lbrace then
      let nm := rest.takeWhile (fun d => d ≠ rbrace)
      let rest2 := (rest.dropWhile (fun d => d ≠ rbrace)).drop 1
      dictGetD args nm [] ++ pyFormat args rest2
    else c :: pyFormat args rest
termination_by s => s.length
decreasing_by
  · have h1 : (rest.dropWhile (fun d => d ≠ rbrace)).length ≤ rest.length :=
      (List.dropWhile_sublist _).length_le
    simp only [List.length_drop, List.length_cons]
    omega
  · simp

/-- Prompt template `ad_copy` from `get_prompt_templates`. -/
def ad_copy_template : Str :=
  ("You are a professional copywriter creating compelling ad copy. Generate advertising copy based on the following context and product information.

{brand_context}

Product/Campaign: {product_prompt}

Create compelling ad copy with the following structure:
Headline: [Create an attention-grabbing headline that hooks the audience]
Subtext: [Write persuasive subtext that explains the value proposition]
CTA: [Create a strong call-to-action button text]

Make sure the copy is engaging, benefit-focused, and matches the specified brand tone. Keep headlines under 60 characters and subtext under 150 characters.").data

/-- Prompt template `social_caption` from `get_prompt_templates`. -/
def social_caption_template : Str :=
  ("You are a social media expert creating engaging captions for {platform}. Generate a caption based on the following context and product information.

{brand_context}

Product/Campaign: {product_prompt}

Create an engaging {platform} caption that includes:
- Hook that grabs attention in the first line
- Compelling product description
- Relevant hashtags (5-10 hashtags)
- Call-to-action appropriate for {platform}

Match the brand tone and make it platform-appropriate. For Instagram: focus on visual storytelling. For TikTok: use trending language and emojis. For LinkedIn: professional tone.").data

/-- Prompt template `email` from `get_prompt_templates`. -/
def email_template : Str :=
  ("You are an email marketing specialist creating email campaign content. Generate email creative blocks based on the following context and product information.

{brand_context}

Product/Campaign: {product_prompt}

Create email content with the following structure:
Subject: [Create a compelling subject line that increases open rates]
Header: [Write an engaging email header/greeting]
Product: [Create persuasive product description with benefits]
CTA: [Create a strong call-to-action button text]

Make sure the content drives engagement and conversions. Keep subject lines under 50 characters and focus on benefits over features.").data

/-- Prompt template `video_script` from `get_prompt_templates`. -/
def video_script_template : Str :=
  ("You are a content creator writing scripts for short-form videos (30-60 seconds). Create a UGC-style video script based on the following context and product information.

{brand_context}

Product/Campaign: {product_prompt}

Create a video script with:
- Strong hook in the first 3 seconds
- Engaging main content that demonstrates value
- Clear call-to-action at the end
- Natural, conversational tone
- Specific visual directions

Format as a natural speaking script that feels authentic and not overly promotional. Include timing suggestions and key visual moments.").data

/-- Prompt template `image_prompt` from `get_prompt_templates`. -/
def image_prompt_template : Str :=
  ("You are an art director creating prompts for AI image generation tools like DALL-E or Midjourney. Generate detailed image prompts based on the following context and product information.

{brand_context}

Product/Campaign: {product_prompt}

Create 3 different image prompts for:
1. Product hero shot/main visual
2. Lifestyle/context shot showing product in use
3. Abstract/conceptual visual representing the brand values

Each prompt should include:
- Clear description of the main subject
- Style and aesthetic direction
- Color palette suggestions
- Composition and lighting details
- Specific technical parameters for high-quality output

Make prompts detailed enough to generate professional-quality marketing visuals.").data

/-- Prompt template `edit` from `get_prompt_templates`. -/
def edit_template : Str :=
  ("You are a professional editor improving marketing content. Edit the following content based on the specific instruction provided.

{brand_context}

Original Content ({content_type}):
{original_content}

Edit Instruction: {edit_instruction}

Provide the improved version maintaining the same format and structure as the original. Make sure the edit follows the instruction while keeping the content effective and on-brand.").data

/-- Brand attribute record (`brand_context` dict); an absent or empty
field is the empty string, matching Python falsiness of `dict.get`. -/
structure BrandContext where
  brand_name : Str
  target_audience : Str
  brand_tone : Str
  industry : Str
  key_values : Str
  deriving DecidableEq, Repr

/-- Embedding of `format_brand_context`: one labelled line per
present (truthy) field, in fixed order, joined with newlines. -/
def format_brand_context (bc : BrandContext) : Str :=
  let parts : List Str :=
    (if bc.brand_name ≠ [] then [("Brand: ").data ++ bc.brand_name] else []) ++
    (if bc.target_audience ≠ [] then [("Target Audience: ").data ++ bc.target_audience] else []) ++
    (if bc.brand_tone ≠ [] then [("Tone: ").data ++ bc.brand_tone] else []) ++
    (if bc.industry ≠ [] then [("Industry: ").data ++ bc.industry] else []) ++
    (if bc.key_values ≠ [] then [("Key Values: ").data ++ bc.key_values] else [])
  joinNL parts

/-- Ad copy record (`ad_copy` dict of `generate_ad_copy`). -/
structure AdCopy where
  headline : Str
  subtext : Str
  cta : Str
  deriving DecidableEq, Repr

/-- Field selector for the ad copy record (`current_section` values). -/
inductive AdSection where
  | headline
  | subtext
  | cta
  deriving DecidableEq, Repr

/-- Write one field of an ad copy record (`ad_copy[current_section] = v`). -/
def adSet (ad : AdCopy) (sec : AdSection) (v : Str) : AdCopy :=
  match sec with
  | .headline => { ad with headline := v }
  | .subtext => { ad with subtext := v }
  | .cta => { ad with cta := v }

/-- Read one field of an ad copy record (`ad_copy[current_section]`). -/
def adGet (ad : AdCopy) (sec : AdSection) : Str :=
  match sec with
  | .headline => ad.headline
  | .subtext => ad.subtext
  | .cta => ad.cta

/-- One iteration of the labelled-line loop of `generate_ad_copy`
(lines 114-126): case-insensitive label recognition, exact-case
`str.replace` of the label, continuation lines appended with a space. -/
def adUpdate (st : AdCopy × Option AdSection) (rawLine : Str) : AdCopy × Option AdSection :=
  let line := pyStrip rawLine
  if (("headline:").data).isPrefixOf (lowerStr line) then
    (adSet st.1 .headline (pyStrip (pyReplace ("Headline:").data [] line)), some .headline)
  else if (("subtext:").data).isPrefixOf (lowerStr line) then
    (adSet st.1 .subtext (pyStrip (pyReplace ("Subtext:").data [] line)), some .subtext)
  else if (("cta:").data).isPrefixOf (lowerStr line) then
    (adSet st.1 .cta (pyStrip (pyReplace ("CTA:").data [] line)), some .cta)
  else
    match st.2 with
    | some sec =>
      if line ≠ [] then (adSet st.1 sec (adGet st.1 sec ++ ' ' :: line), st.2) else st
    | none => st

/-- Labelled-line pass of `generate_ad_copy` over the response lines. -/
def ad_copy_labeled (response : Str) : AdCopy :=
  ((splitNL response).foldl adUpdate (⟨[], [], []⟩, none)).1

/-- Response-parsing part of `generate_ad_copy` (lines 106-143):
labelled pass, then on a totally empty record the blank-line-split
fallback into up to three paragraphs, then the placeholder fallback. -/
def ad_copy_parse (response : Str) : AdCopy :=
  let ad := ad_copy_labeled response
  if ad.headline = [] ∧ ad.subtext = [] ∧ ad.cta = [] then
    let parts := splitNN response
    if 3 ≤ parts.length then
      ⟨pyStrip (parts.getD 0 []), pyStrip (parts.getD 1 []), pyStrip (parts.getD 2 [])⟩
    else
      ⟨response.take 100 ++ ("...").data,
       ("Compelling subtext for your product").data,
       ("Learn More").data⟩
  else ad

/-- Email creative blocks record (`email_blocks` dict). -/
structure EmailBlocks where
  subject_line : Str
  header : Str
  product_blurb : Str
  cta_button : Str
  deriving DecidableEq, Repr

/-- Field selector for the email record (`current_section` values). -/
inductive EmailSection where
  | subject_line
  | header
  | product_blurb
  | cta_button
  deriving DecidableEq, Repr

/-- Write one field of an email record. -/
def emailSet (e : EmailBlocks) (sec : EmailSection) (v : Str) : EmailBlocks :=
  match sec with
  | .subject_line => { e with subject_line := v }
  | .header => { e with header := v }
  | .product_blurb => { e with product_blurb := v }
  | .cta_button => { e with cta_button := v }

/-- Read one field of an email record. -/
def emailGet (e : EmailBlocks) (sec : EmailSection) : Str :=
  match sec with
  | .subject_line => e.subject_line
  | .header => e.header
  | .product_blurb => e.product_blurb
  | .cta_button => e.cta_button

/-- One iteration of the labelled-line loop of `generate_email_blocks`
(lines 186-201). -/
def emailUpdate (st : EmailBlocks × Option EmailSection) (rawLine : Str) :
    EmailBlocks × Option EmailSection :=
  let line := pyStrip rawLine
  if (("subject:").data).isPrefixOf (lowerStr line) then
    (emailSet st.1 .subject_line (pyStrip (pyReplace ("Subject:").data [] line)), some .subject_line)
  else if (("header:").data).isPrefixOf (lowerStr line) then
    (emailSet st.1 .header (pyStrip (pyReplace ("Header:").data [] line)), some .header)
  else if (("product:").data).isPrefixOf (lowerStr line) then
    (emailSet st.1 .product_blurb (pyStrip (pyReplace ("Product:").data [] line)), some .product_blurb)
  else if (("cta:").data).isPrefixOf (lowerStr line) then
    (emailSet st.1 .cta_button (pyStrip (pyReplace ("CTA:").data [] line)), some .cta_button)
  else
    match st.2 with
    | some sec =>
      if line ≠ [] then (emailSet st.1 sec (emailGet st.1 sec ++ ' ' :: line), st.2) else st
    | none => st

/-- Response-parsing part of `generate_email_blocks` (lines 176-203):
labelled pass only, unmatched fields stay empty. -/
def email_parse (response : Str) : EmailBlocks :=
  ((splitNL response).foldl emailUpdate (⟨[], [], [], []⟩, none)).1

/-- Video script record (`script` dict of `generate_video_script`). -/
structure VideoScript where
  hook : Str
  main_content : Str
  cta : Str
  duration : Str
  deriving DecidableEq, Repr

/-- Response-parsing part of `generate_video_script` (lines 217-233):
blank-line split, first three blocks to hook/main/cta, otherwise the
whole response into `main_content`; duration is the fixed default. -/
def video_parse (response : Str) : VideoScript :=
  let sections := splitNN response
  if 3 ≤ sections.length then
    ⟨pyStrip (sections.getD 0 []), pyStrip (sections.getD 1 []), pyStrip (sections.getD 2 []),
     ("30-60 seconds").data⟩
  else
    ⟨[], response, [], ("30-60 seconds").data⟩

/-- Character set of the `str.lstrip` call in `generate_image_prompts`
(line 253).  The source file literally contains the nonzero digits,
dot, hyphen, the three characters with code points 226, 8364 and 162
(a mojibake rendering of a bullet glyph), and a space. -/
def bulletChars : Str :=
  ("123456789.-").data ++ [Char.ofNat 226, Char.ofNat 8364, Char.ofNat 162, ' ']

/-- One iteration of the line loop of `generate_image_prompts`
(lines 249-255). -/
def imageLineStep (acc : List Str) (rawLine : Str) : List Str :=
  let line := pyStrip rawLine
  if !line.isEmpty && !((("#").data).isPrefixOf line) then
    let cleaned := pyStrip (pyLstripSet line bulletChars)
    if 10 < cleaned.length then acc ++ [cleaned] else acc
  else acc

/-- Response-parsing part of `generate_image_prompts` (lines 247-257). -/
def image_prompts_parse (response : Str) : List Str :=
  let prompts := (splitNL response).foldl imageLineStep []
  if prompts ≠ [] then prompts.take 3 else [response]

/-- The ImagePrompts parser as the amended specification sentence
describes it, written as a filter pipeline from the spec's words:
split into lines, strip each, discard empty lines and lines starting
with a hash, strip the leading numbering/bullet characters, keep only
cleaned lines longer than 10 characters, return at most the first 3,
and return the single-element raw response if none qualify. -/
def image_prompts_spec (response : Str) : List Str :=
  let kept :=
    ((((splitNL response).map pyStrip).filter
        (fun l => !l.isEmpty && !((("#").data).isPrefixOf l))).map
      (fun l => pyStrip (pyLstripSet l bulletChars))).filter
      (fun cleaned => decide (10 < cleaned.length))
  if kept = [] then [response] else kept.take 3

/-- Embedding of `parse_ad_copy_from_text` (lines 323-337): labelled
lines only, no continuation accumulation, no fallback. -/
def adFromTextStep (ad : AdCopy) (rawLine : Str) : AdCopy :=
  let line := pyStrip rawLine
  if (("headline:").data).isPrefixOf (lowerStr line) then
    { ad with headline := pyStrip (pyReplace ("Headline:").data [] line) }
  else if (("subtext:").data).isPrefixOf (lowerStr line) then
    { ad with subtext := pyStrip (pyReplace ("Subtext:").data [] line) }
  else if (("cta:").data).isPrefixOf (lowerStr line) then
    { ad with cta := pyStrip (pyReplace ("CTA:").data [] line) }
  else ad

/-- Embedding of `parse_ad_copy_from_text`. -/
def parse_ad_copy_from_text (text : Str) : AdCopy :=
  (splitNL text).foldl adFromTextStep ⟨[], [], []⟩

/-- Embedding of `parse_email_blocks_from_text` (lines 339-355). -/
def emailFromTextStep (e : EmailBlocks) (rawLine : Str) : EmailBlocks :=
  let line := pyStrip rawLine
  if (("subject:").data).isPrefixOf (lowerStr line) then
    { e with subject_line := pyStrip (pyReplace ("Subject:").data [] line) }
  else if (("header:").data).isPrefixOf (lowerStr line) then
    { e with header := pyStrip (pyReplace ("Header:").data [] line) }
  else if (("product:").data).isPrefixOf (lowerStr line) then
    { e with product_blurb := pyStrip (pyReplace ("Product:").data [] line) }
  else if (("cta:").data).isPrefixOf (lowerStr line) then
    { e with cta_button := pyStrip (pyReplace ("CTA:").data [] line) }
  else e

/-- Embedding of `parse_email_blocks_from_text`. -/
def parse_email_blocks_from_text (text : Str) : EmailBlocks :=
  (splitNL text).foldl emailFromTextStep ⟨[], [], [], []⟩

/-- Configuration record built by `load_llm` (the `ChatGroq(...)`
constructor arguments; the temperature 0.3 is embedded as a rational). -/
structure ChatGroq where
  groq_api_key : Str
  model_name : Str
  temperature : Rat
  max_tokens : Nat
  deriving DecidableEq, Repr

/-- Embedding of `load_llm` (lines 16-26).  The first argument is the
explicit `groq_api_key` parameter (`none` for Python `None`), the
second the environment binding of `GROQ_API_KEY` (`none` when the
variable is absent).  Python `a or b` takes `b` when `a` is `None` or
empty; `os.environ.get(k, "---")` yields `"---"` when absent. -/
def load_llm (groq_api_key : Option Str) (env_GROQ_API_KEY : Option Str) :
    Except Str ChatGroq :=
  let api_key : Str :=
    match groq_api_key with
    | some k => if k ≠ [] then k else env_GROQ_API_KEY.getD (("---").data)
    | none => env_GROQ_API_KEY.getD (("---").data)
  if api_key = [] then
    .error (("GROQ_API_KEY is required").data)
  else
    .ok ⟨api_key, ("llama3-8b-8192").data, 3 / 10, 512⟩

/-- Observable outcome of one `make_api_call` invocation: the returned
or raised value, the `time.sleep` durations performed between
attempts, and the number of underlying model invocations made. -/
structure ApiTrace where
  result : Except Str Str
  sleeps : List Nat
  calls : Nat
  deriving Repr

/-- The retry loop of `make_api_call` (lines 38-50).  `call i` is the
outcome of the underlying `llm.invoke` on attempt `i` (an `Except`
carrying `str(e)` on failure); `rem` is the number of loop iterations
left, so the loop is entered with `rem = max_retries`.  On success the
payload is stripped; on the final attempt's failure the error wraps
the cause detail and the attempt count; otherwise `time.sleep(2 **
attempt)` runs and the loop retries. -/
def api_retry_loop (call : Nat → Except Str Str) (max_retries : Nat) :
    Nat → Nat → ApiTrace
  | _, 0 => ⟨.error (("Failed to generate content after all retries").data), [], 0⟩
  | attempt, rem + 1 =>
    match call attempt with
    | .ok content => ⟨.ok (pyStrip content), [], 1⟩
    | .error e =>
      if attempt = max_retries - 1 then
        ⟨.error ((("Groq API call failed after ").data) ++ natStr max_retries ++
                 ((" attempts: ").data) ++ e), [], 1⟩
      else
        let t := api_retry_loop call max_retries (attempt + 1) rem
        ⟨t.result, 2 ^ attempt :: t.sleeps, t.calls + 1⟩

/-- Embedding of `make_api_call` (lines 35-52). -/
def make_api_call (call : Nat → Except Str Str) (max_retries : Nat) : ApiTrace :=
  api_retry_loop call max_retries 0 max_retries

/-- One variation's generated value as stored in the results mapping
(`Any` in the source: a typed record, a platform map, a prompt list,
or a plain string such as an error marker). -/
inductive GenItem where
  | adCopy (a : AdCopy)
  | captions (m : List (Str × Str))
  | email (e : EmailBlocks)
  | video (v : VideoScript)
  | prompts (ps : List Str)
  | text (s : Str)
  deriving DecidableEq, Repr

/-- Oracle for `make_api_call` as seen by the generators: given the
number of model calls made so far in the request and the full prompt,
either the (already stripped) response text or the raised error
detail.  Indexing by call count lets distinct variations observe
distinct outcomes, as the external service does. -/
abbrev ModelApi := Nat → Str → Except Str Str

/-- Embedding of `generate_ad_copy` (lines 94-144): template
substitution, one model call, response parsing.  Returns the new call
count alongside the outcome. -/
def generate_ad_copy (api : ModelApi) (k : Nat) (prompt brand_context : Str) :
    Except Str GenItem × Nat :=
  let full_prompt := pyFormat
    [((("brand_context").data), brand_context), ((("product_prompt").data), prompt)]
    ad_copy_template
  match api k full_prompt with
  | .ok response => (.ok (.adCopy (ad_copy_parse response)), k + 1)
  | .error e => (.error e, k + 1)

/-- The platform loop of `generate_social_captions` (lines 151-160):
one model call per platform, captions collected into a dict keyed by
platform; a raised call aborts the loop. -/
def social_loop (api : ModelApi) (prompt brand_context : Str) :
    List Str → List (Str × Str) → Nat → Except Str (List (Str × Str)) × Nat
  | [], acc, k => (.ok acc, k)
  | platform :: rest, acc, k =>
    let full_prompt := pyFormat
      [((("brand_context").data), brand_context), ((("product_prompt").data), prompt),
       ((("platform").data), platform)]
      social_caption_template
    match api k full_prompt with
    | .ok response => social_loop api prompt brand_context rest (dictSet acc platform response) (k + 1)
    | .error e => (.error e, k + 1)

/-- Embedding of `generate_social_captions` (lines 146-162). -/
def generate_social_captions (api : ModelApi) (k : Nat) (prompt : Str)
    (platforms : List Str) (brand_context : Str) : Except Str GenItem × Nat :=
  match social_loop api prompt brand_context platforms [] k with
  | (.ok captions, k1) => (.ok (.captions captions), k1)
  | (.error e, k1) => (.error e, k1)

/-- Embedding of `generate_email_blocks` (lines 164-203). -/
def generate_email_blocks (api : ModelApi) (k : Nat) (prompt brand_context : Str) :
    Except Str GenItem × Nat :=
  let full_prompt := pyFormat
    [((("brand_context").data), brand_context), ((("product_prompt").data), prompt)]
    email_template
  match api k full_prompt with
  | .ok response => (.ok (.email (email_parse response)), k + 1)
  | .error e => (.error e, k + 1)

/-- Embedding of `generate_video_script` (lines 205-233). -/
def generate_video_script (api : ModelApi) (k : Nat) (prompt brand_context : Str) :
    Except Str GenItem × Nat :=
  let full_prompt := pyFormat
    [((("brand_context").data), brand_context), ((("product_prompt").data), prompt)]
    video_script_template
  match api k full_prompt with
  | .ok response => (.ok (.video (video_parse response)), k + 1)
  | .error e => (.error e, k + 1)

/-- Embedding of `generate_image_prompts` (lines 235-257). -/
def generate_image_prompts (api : ModelApi) (k : Nat) (prompt brand_context : Str) :
    Except Str GenItem × Nat :=
  let full_prompt := pyFormat
    [((("brand_context").data), brand_context), ((("product_prompt").data), prompt)]
    image_prompt_template
  match api k full_prompt with
  | .ok response => (.ok (.prompts (image_prompts_parse response)), k + 1)
  | .error e => (.error e, k + 1)

/-- The five supported content-type names of the dispatch in
`generate_content` (lines 74-83). -/
def supportedTypes : List Str :=
  [("Ad Copy").data, ("Social Media Captions").data, ("Email Creative Blocks").data,
   ("Video Scripts").data, ("Image Prompts").data]

/-- The content-type dispatch inside the `try` block of
`generate_content` (lines 74-85): an unsupported name yields the
literal placeholder string and makes no model call. -/
def gen_one (api : ModelApi) (k : Nat) (prompt : Str) (platforms : List Str)
    (brand_context_str : Str) (content_type : Str) : Except Str GenItem × Nat :=
  if content_type = ("Ad Copy").data then
    generate_ad_copy api k prompt brand_context_str
  else if content_type = ("Social Media Captions").data then
    generate_social_captions api k prompt platforms brand_context_str
  else if content_type = ("Email Creative Blocks").data then
    generate_email_blocks api k prompt brand_context_str
  else if content_type = ("Video Scripts").data then
    generate_video_script api k prompt brand_context_str
  else if content_type = ("Image Prompts").data then
    generate_image_prompts api k prompt brand_context_str
  else
    (.ok (.text (("Content type not supported").data)), k)

/-- The variation loop of `generate_content` (lines 72-90): `i` is the
current variation index, `n` the variations still to produce.  A
caught error appends the inline marker containing the 1-based
variation index and the failure detail, then the loop continues. -/
def run_vars (api : ModelApi) (prompt : Str) (platforms : List Str)
    (brand_context_str content_type : Str) : Nat → Nat → Nat → List GenItem × Nat
  | _, 0, k => ([], k)
  | i, n + 1, k =>
    let r := gen_one api k prompt platforms brand_context_str content_type
    let item : GenItem :=
      match r.1 with
      | .ok content => content
      | .error e =>
        .text ((("Error generating variation ").data) ++ natStr (i + 1) ++ ((": ").data) ++ e)
    let rest := run_vars api prompt platforms brand_context_str content_type (i + 1) n r.2
    (item :: rest.1, rest.2)

/-- The content-type loop of `generate_content` (lines 69-92).  The
source initialises `results[content_type] = []` and appends each
variation in turn; on an insertion-ordered dict that is exactly
`dictSet` of the completed variation list. -/
def gen_go (api : ModelApi) (prompt : Str) (platforms : List Str)
    (brand_context_str : Str) (num_variations : Nat) :
    List Str → List (Str × List GenItem) → Nat → List (Str × List GenItem) × Nat
  | [], results, k => (results, k)
  | content_type :: rest, results, k =>
    let vars := run_vars api prompt platforms brand_context_str content_type 0 num_variations k
    gen_go api prompt platforms brand_context_str num_variations rest
      (dictSet results content_type vars.1) vars.2

/-- Embedding of `generate_content` (lines 54-92).  `platforms` and
`brand_context` are the optional parameters (`None` embeds to `none`);
`platforms or ["Instagram"]` defaults both `None` and `[]`.  Returns
the results mapping together with the total number of model calls
made (0 at entry). -/
def generate_content (api : ModelApi) (prompt : Str) (content_types : List Str)
    (platforms : Option (List Str)) (brand_context : Option BrandContext)
    (num_variations : Nat) : List (Str × List GenItem) × Nat :=
  let brand_context_str : Str :=
    match brand_context with
    | some bc => format_brand_context bc
    | none => []
  let platform_list : List Str :=
    match platforms with
    | some ps => if ps ≠ [] then ps else [("Instagram").data]
    | none => [("Instagram").data]
  gen_go api prompt platform_list brand_context_str num_variations content_types [] 0

/-- JSON values, as produced by Python `json.loads`. -/
inductive Json where
  | null
  | bool (b : Bool)
  | num (n : Int)
  | str (s : Str)
  | arr (elems : List Json)
  | obj (members : List (Str × Json))

/-- JSON insignificant whitespace. -/
def jsonSkipWs (s : Str) : Str :=
  s.dropWhile (fun c => c = ' ' || c = '\t' || c = '\n' || c = '\r')

/-- ASCII digit test. -/
def isJsonDigit (c : Char) : Bool := '0' ≤ c && c ≤ '9'

/-- Digit string to number. -/
def jsonDigitsToNat (ds : Str) : Nat :=
  ds.foldl (fun acc c => acc * 10 + (c.toNat - ('0').toNat)) 0

mutual

/-- Model of Python `json.loads` value parsing, fuelled; covers the
JSON fragment without escape sequences, fractions or exponents (the
model call's free-text responses either fail to parse, as any
non-JSON text does here too, or are plain JSON data). -/
def jsonParseVal : Nat → Str → Option (Json × Str)
  | 0, _ => none
  | fuel + 1, s0 =>
    let s := jsonSkipWs s0
    match s with
    | [] => none
    | c :: rest =>
      if c = '\"' then
        let content := rest.takeWhile (fun d => d ≠ '\"')
        match rest.dropWhile (fun d => d ≠ '\"') with
        | [] => none
        | _ :: after => some (.str content, after)
      else if c = 'n' then
        if (("null").data).isPrefixOf s then some (.null, s.drop 4) else none
      else if c = 't' then
        if (("true").data).isPrefixOf s then some (.bool true, s.drop 4) else none
      else if c = 'f' then
        if (("false").data).isPrefixOf s then some (.bool false, s.drop 5) else none
      else if c = '-' then
        let digits := rest.takeWhile isJsonDigit
        if digits = [] then none
        else some (.num (-(jsonDigitsToNat digits : Int)), rest.drop digits.length)
      else if isJsonDigit c then
        let digits := s.takeWhile isJsonDigit
        some (.num (jsonDigitsToNat digits : Int), s.drop digits.length)
      else if c = '[' then
        match jsonSkipWs rest with
        | ']' :: after => some (.arr [], after)
        | _ =>
          match jsonParseArrItems fuel rest with
          | some (elems, after) => some (.arr elems, after)
          | none => none
      else if c = lbrace then
        match jsonSkipWs rest with
        | d :: after => if d = rbrace then some (.obj [], after) else
            match jsonParseObjItems fuel rest with
            | some (members, after2) => some (.obj members, after2)
            | none => none
        | [] => none
      else none

/-- Array elements: value, then `,` and more elements or `]`. -/
def jsonParseArrItems : Nat → Str → Option (List Json × Str)
  | 0, _ => none
  | fuel + 1, s =>
    match jsonParseVal fuel s with
    | none => none
    | some (j, rest) =>
      match jsonSkipWs rest with
      | ',' :: rest2 =>
        match jsonParseArrItems fuel rest2 with
        | some (elems, after) => some (j :: elems, after)
        | none => none
      | ']' :: after => some ([j], after)
      | _ => none

/-- Object members: `"key": value`, then `,` and more members or the
closing brace. -/
def jsonParseObjItems : Nat → Str → Option (List (Str × Json) × Str)
  | 0, _ => none
  | fuel + 1, s =>
    match jsonSkipWs s with
    | '\"' :: rest =>
      let key := rest.takeWhile (fun d => d ≠ '\"')
      match rest.dropWhile (fun d => d ≠ '\"') with
      | [] => none
      | _ :: afterKey =>
        match jsonSkipWs afterKey with
        | ':' :: afterColon =>
          match jsonParseVal fuel afterColon with
          | none => none
          | some (j, rest2) =>
            match jsonSkipWs rest2 with
            | ',' :: rest3 =>
              match jsonParseObjItems fuel rest3 with
              | some (members, after) => some ((key, j) :: members, after)
              | none => none
            | d :: after => if d = rbrace then some ([(key, j)], after) else none
            | [] => none
        | _ => none
    | _ => none

end

/-- Model of Python `json.loads`: parse one value and require only
whitespace to remain; `none` models the raised `JSONDecodeError`. -/
def jsonLoads (s : Str) : Option Json :=
  match jsonParseVal (s.length + 1) s with
  | some (j, rest) => if jsonSkipWs rest = [] then some j else none
  | none => none

/-- Quote a string for JSON output (the record fields the source dumps
contain no characters needing escapes). -/
def jsonQuote (s : Str) : Str := '\"' :: s ++ ['\"']

/-- Join with a comma-newline separator. -/
def joinCommaNL : List Str → Str
  | [] => []
  | [p] => p
  | p :: rest => p ++ ',' :: '\n' :: joinCommaNL rest

/-- Model of Python `json.dumps(d, indent=2)` for a flat
string-to-string dict, as used to render a structured original for
the edit prompt. -/
def jsonDumpsDict (kvs : List (Str × Str)) : Str :=
  match kvs with
  | [] => [lbrace, rbrace]
  | _ =>
    let lines := kvs.map (fun kv => (("  ").data) ++ jsonQuote kv.1 ++ ((": ").data) ++ jsonQuote kv.2)
    lbrace :: '\n' :: (joinCommaNL lines ++ '\n' :: [rbrace])

/-- The shapes of `original_content` that `edit_content`
distinguishes: a structured record (a flat string dict — every
structured variation the generator produces is one) or a plain
string. -/
inductive PyVal where
  | dict (kvs : List (Str × Str))
  | str (s : Str)
  deriving DecidableEq, Repr

/-- The possible shapes of `edit_content`'s return value. -/
inductive EditResult where
  | json (j : Json)
  | adCopy (a : AdCopy)
  | email (e : EmailBlocks)
  | wrapped (edited_content : Str)
  | text (s : Str)

/-- Embedding of `edit_content` (lines 259-302): build the edit
prompt, make one model call, then reconcile — for a structured
original first try `json.loads` on the raw response, else run the
type-specific textual parser for Ad Copy or Email Creative Blocks,
else wrap as `edited_content`; for an unstructured original return
the raw response. -/
def edit_content (api : ModelApi) (k : Nat) (original_content : PyVal)
    (edit_instruction : Str) (content_type : Str)
    (brand_context : Option BrandContext) : Except Str EditResult × Nat :=
  let brand_context_str : Str :=
    match brand_context with
    | some bc => format_brand_context bc
    | none => []
  let content_str : Str :=
    match original_content with
    | .dict kvs => jsonDumpsDict kvs
    | .str s => s
  let full_prompt := pyFormat
    [((("brand_context").data), brand_context_str),
     ((("original_content").data), content_str),
     ((("edit_instruction").data), edit_instruction),
     ((("content_type").data), content_type)]
    edit_template
  match api k full_prompt with
  | .error e => (.error e, k + 1)
  | .ok response =>
    match original_content with
    | .dict _ =>
      match jsonLoads response with
      | some j => (.ok (.json j), k + 1)
      | none =>
        if content_type = ("Ad Copy").data then
          (.ok (.adCopy (parse_ad_copy_from_text response)), k + 1)
        else if content_type = ("Email Creative Blocks").data then
          (.ok (.email (parse_email_blocks_from_text response)), k + 1)
        else
          (.ok (.wrapped response), k + 1)
    | .str _ => (.ok (.text response), k + 1)

/-! ## Helper lemmas about the orchestrator -/

/-- The variation loop always produces exactly as many slots as
requested, whatever the call outcomes. -/
theorem run_vars_length (api : ModelApi) (prompt : Str) (platforms : List Str)
    (brand ct : Str) : ∀ n i k, ((run_vars api prompt platforms brand ct i n k).1).length = n := by
  intro n
  induction n with
  | zero => intro i k; simp [run_vars]
  | succ n ih => intro i k; simp [run_vars, ih]

/-- Setting an absent key appends the binding at the end. -/
theorem dictSet_fresh {α : Type} (k : Str) (v : α) :
    ∀ d : List (Str × α), (∀ p ∈ d, p.1 ≠ k) → dictSet d k v = d ++ [(k, v)] := by
  intro d
  induction d with
  | nil => intro _; rfl
  | cons q rest ih =>
    intro h
    simp only [dictSet]
    rw [if_neg (h q (by simp))]
    simp [ih (fun p hp => h p (by simp [hp]))]

/-- Looking up a key of a binding present in a dict with nodup keys
yields that binding's value. -/
theorem dictGet_of_mem {α : Type} :
    ∀ (d : List (Str × α)) (p : Str × α), p ∈ d → (d.map Prod.fst).Nodup →
      dictGet d p.1 = some p.2 := by
  intro d
  induction d with
  | nil => intro p hp; simp at hp
  | cons q rest ih =>
    intro p hp hnd
    simp only [List.map_cons, List.nodup_cons] at hnd
    rcases List.mem_cons.mp hp with h | h
    · subst h; simp [dictGet]
    · have hne : q.1 ≠ p.1 := by
        intro he
        exact hnd.1 (he ▸ List.mem_map_of_mem Prod.fst h)
      simp only [dictGet]
      rw [if_neg hne]
      exact ih p h hnd.2

/-- An unsupported content type makes no model call and fills every
slot with the literal placeholder. -/
theorem run_vars_unsupported (api : ModelApi) (prompt : Str) (platforms : List Str)
    (brand ct : Str) (h : ct ∉ supportedTypes) :
    ∀ n i k, run_vars api prompt platforms brand ct i n k =
      (List.replicate n (GenItem.text (("Content type not supported").data)), k) := by
  simp only [supportedTypes, List.mem_cons, not_or] at h
  obtain ⟨h1, h2, h3, h4, h5, -⟩ := h
  have hone : ∀ k, gen_one api k prompt platforms brand ct =
      (.ok (.text (("Content type not supported").data)), k) := by
    intro k
    simp [gen_one, h1, h2, h3, h4, h5]
  intro n
  induction n with
  | zero => intro i k; simp [run_vars]
  | succ n ih => intro i k; simp [run_vars, hone, ih, List.replicate_succ]

/-- Shape of the content-type loop's result: on fresh, duplicate-free
content types the final mapping is the input dict extended by one
binding per requested type, in request order, each holding exactly
`num` slots, with unsupported types holding only placeholder
strings. -/
theorem gen_go_spec (api : ModelApi) (prompt : Str) (platforms : List Str)
    (brand : Str) (num : Nat) :
    ∀ (cts : List Str) (d : List (Str × List GenItem)) (k : Nat),
      cts.Nodup → (∀ ct ∈ cts, ∀ p ∈ d, p.1 ≠ ct) →
      ∃ ents, (gen_go api prompt platforms brand num cts d k).1 = d ++ ents ∧
        ents.map Prod.fst = cts ∧
        ∀ p ∈ ents, p.2.length = num ∧
          (p.1 ∉ supportedTypes →
            p.2 = List.replicate num (GenItem.text (("Content type not supported").data))) := by
  intro cts
  induction cts with
  | nil =>
    intro d k _ _
    exact ⟨[], by simp [gen_go], rfl, by simp⟩
  | cons ct rest ih =>
    intro d k hnd hfresh
    simp only [List.nodup_cons] at hnd
    simp only [gen_go]
    rw [dictSet_fresh ct _ d (fun p hp => hfresh ct (by simp) p hp)]
    have hfresh2 : ∀ c ∈ rest, ∀ p ∈ d ++ [(ct, (run_vars api prompt platforms brand ct 0 num k).1)], p.1 ≠ c := by
      intro c hc p hp
      rcases List.mem_append.mp hp with h | h
      · exact hfresh c (by simp [hc]) p h
      · have hp1 : p.1 = ct := by simp only [List.mem_singleton] at h; rw [h]
        rw [hp1]
        intro he
        exact hnd.1 (he ▸ hc)
    obtain ⟨ents, he1, he2, he3⟩ := ih _ _ hnd.2 hfresh2
    refine ⟨(ct, (run_vars api prompt platforms brand ct 0 num k).1) :: ents, ?_, ?_, ?_⟩
    · rw [he1]; simp
    · simp [he2]
    · intro p hp
      rcases List.mem_cons.mp hp with h | h
      · subst h
        refine ⟨run_vars_length api prompt platforms brand ct num 0 k, ?_⟩
        intro hns
        rw [run_vars_unsupported api prompt platforms brand ct hns num 0 k]
      · exact he3 p h

/-! ## Claim theorems -/

/-- C1: for every generation request with duplicate-free content
types, the result mapping's keys are exactly the request's content
types in request order, and every type's variations list has length
exactly `num_variations`, whatever the model-call outcomes (including
total failure). -/
theorem generate_content_keys_lengths (api : ModelApi) (prompt : Str)
    (content_types : List Str) (platforms : Option (List Str))
    (brand_context : Option BrandContext) (num_variations : Nat)
    (hnd : content_types.Nodup) :
    ((generate_content api prompt content_types platforms brand_context num_variations).1).map Prod.fst
        = content_types ∧
    ∀ p ∈ (generate_content api prompt content_types platforms brand_context num_variations).1,
      p.2.length = num_variations := by
  obtain ⟨ents, he1, he2, he3⟩ := gen_go_spec api prompt
    (match platforms with
     | some ps => if ps ≠ [] then ps else [("Instagram").data]
     | none => [("Instagram").data])
    (match brand_context with
     | some bc => format_brand_context bc
     | none => [])
    num_variations content_types [] 0 hnd (by simp)
  constructor
  · show ((gen_go api prompt _ _ _ content_types [] 0).1).map Prod.fst = content_types
    rw [he1]; simpa using he2
  · show ∀ p ∈ (gen_go api prompt _ _ _ content_types [] 0).1, p.2.length = num_variations
    rw [he1]
    simpa using fun p hp => (he3 p hp).1

/-- Witness for C1 at a concrete request whose every model call
fails. -/
theorem generate_content_keys_lengths_witness :
    ((generate_content (fun _ _ => .error (("boom").data)) (("p").data)
        [("Ad Copy").data, ("Image Prompts").data] none none 2).1).map Prod.fst
      = [("Ad Copy").data, ("Image Prompts").data] ∧
    ∀ p ∈ (generate_content (fun _ _ => .error (("boom").data)) (("p").data)
        [("Ad Copy").data, ("Image Prompts").data] none none 2).1,
      p.2.length = 2 :=
  generate_content_keys_lengths (fun _ _ => .error (("boom").data)) (("p").data)
    [("Ad Copy").data, ("Image Prompts").data] none none 2 (by decide)

/-- C2: a variation whose model call raises is caught in isolation:
its slot becomes the inline marker built from the 1-based variation
index and the failure detail, and the loop still produces all
remaining variations. -/
theorem run_vars_error_isolated (api : ModelApi) (prompt : Str) (platforms : List Str)
    (brand ct : Str) (i n k k1 : Nat) (e : Str)
    (h : gen_one api k prompt platforms brand ct = (.error e, k1)) :
    (run_vars api prompt platforms brand ct i (n + 1) k).1 =
      GenItem.text ((("Error generating variation ").data) ++ natStr (i + 1) ++ ((": ").data) ++ e)
        :: (run_vars api prompt platforms brand ct (i + 1) n k1).1 ∧
    ((run_vars api prompt platforms brand ct (i + 1) n k1).1).length = n := by
  constructor
  · simp [run_vars, h]
  · exact run_vars_length api prompt platforms brand ct n (i + 1) k1

/-- Witness for C2: a failing Ad Copy call at variation index 0
yields the marker with index 1 and detail, and one further variation
is still produced. -/
theorem run_vars_error_isolated_witness :
    (run_vars (fun _ _ => .error (("boom").data)) (("p").data) [] [] (("Ad Copy").data) 0 2 0).1 =
      GenItem.text (("Error generating variation 1: boom").data)
        :: (run_vars (fun _ _ => .error (("boom").data)) (("p").data) [] [] (("Ad Copy").data) 1 1 1).1 ∧
    ((run_vars (fun _ _ => .error (("boom").data)) (("p").data) [] [] (("Ad Copy").data) 1 1 1).1).length = 1 :=
  run_vars_error_isolated (fun _ _ => .error (("boom").data)) (("p").data) [] []
    (("Ad Copy").data) 0 1 0 1 (("boom").data) rfl

/-- C3: when the underlying call always fails, `make_api_call` with
the source's `max_retries = 3` makes exactly 3 attempts, sleeps 1 then
2 time units between them, and raises the wrapper error naming the
attempt count and the final cause detail. -/
theorem make_api_call_total_failure (errs : Nat → Str) :
    make_api_call (fun i => .error (errs i)) 3 =
      ⟨.error ((("Groq API call failed after 3 attempts: ").data) ++ errs 2), [1, 2], 3⟩ := by
  rfl

/-- C9: an unsupported content-type string does not abort generation:
its key is still present and each of its slots is the literal
placeholder string. -/
theorem generate_content_unsupported (api : ModelApi) (prompt : Str)
    (content_types : List Str) (platforms : Option (List Str))
    (brand_context : Option BrandContext) (num_variations : Nat) (ct : Str)
    (hnd : content_types.Nodup) (hmem : ct ∈ content_types) (hns : ct ∉ supportedTypes) :
    dictGet (generate_content api prompt content_types platforms brand_context num_variations).1 ct
      = some (List.replicate num_variations (GenItem.text (("Content type not supported").data))) := by
  obtain ⟨ents, he1, he2, he3⟩ := gen_go_spec api prompt
    (match platforms with
     | some ps => if ps ≠ [] then ps else [("Instagram").data]
     | none => [("Instagram").data])
    (match brand_context with
     | some bc => format_brand_context bc
     | none => [])
    num_variations content_types [] 0 hnd (by simp)
  show dictGet (gen_go api prompt _ _ _ content_types [] 0).1 ct = _
  rw [he1, List.nil_append]
  have hct : ct ∈ ents.map Prod.fst := he2 ▸ hmem
  obtain ⟨p, hp, hpe⟩ := List.mem_map.mp hct
  have := (he3 p hp).2 (hpe ▸ hns)
  rw [← hpe, dictGet_of_mem ents p hp (he2 ▸ hnd), this]

/-- Witness for C9 at a concrete unsupported type in a mixed
request. -/
theorem generate_content_unsupported_witness :
    dictGet (generate_content (fun _ _ => .ok (("r").data)) (("p").data)
        [("Ad Copy").data, ("Blog Posts").data] none none 2).1 (("Blog Posts").data)
      = some (List.replicate 2 (GenItem.text (("Content type not supported").data))) :=
  generate_content_unsupported (fun _ _ => .ok (("r").data)) (("p").data)
    [("Ad Copy").data, ("Blog Posts").data] none none 2 (("Blog Posts").data)
    (by decide) (by decide) (by decide)

/-- C4 counterexample: `generate_content` performs no request
validation.  With an empty content-type list it returns an empty
mapping and makes no model call rather than raising; with an empty
prompt it proceeds to make model calls and returns a normal mapping
rather than aborting. -/
theorem generate_content_no_validation_cex :
    generate_content (fun _ _ => .ok (("ok").data)) [] [] none none 3 = ([], 0) ∧
    ((generate_content (fun _ _ => .ok (("ok").data)) [] [("Ad Copy").data] none none 1).1).map Prod.fst
      = [("Ad Copy").data] ∧
    (generate_content (fun _ _ => .ok (("ok").data)) [] [("Ad Copy").data] none none 1).2 = 1 := by
  exact ⟨rfl, rfl, rfl⟩

/-- C4 amended: generation never fails as a whole and performs no
input validation — an empty content-type list yields an empty mapping
with zero model calls, and an empty prompt still produces the full
mapping for any requested types. -/
theorem generate_content_no_validation (api : ModelApi) (platforms : Option (List Str))
    (brand_context : Option BrandContext) (num_variations : Nat) (cts : List Str)
    (hnd : cts.Nodup) :
    generate_content api [] [] platforms brand_context num_variations = ([], 0) ∧
    ((generate_content api [] cts platforms brand_context num_variations).1).map Prod.fst = cts := by
  exact ⟨rfl, (generate_content_keys_lengths api [] cts platforms brand_context num_variations hnd).1⟩

/-- Witness for the amended C4 at a concrete request. -/
theorem generate_content_no_validation_witness :
    generate_content (fun _ _ => .ok (("ok").data)) [] [] none none 3 = ([], 0) ∧
    ((generate_content (fun _ _ => .ok (("ok").data)) [] [("Video Scripts").data] none none 3).1).map Prod.fst
      = [("Video Scripts").data] :=
  generate_content_no_validation (fun _ _ => .ok (("ok").data)) none none 3
    [("Video Scripts").data] (by decide)

/-- C5: with no explicit credential and no environment credential,
`load_llm` does not fail fast — the `os.environ.get` default makes the
missing-credential guard unreachable and a client is constructed with
the placeholder key `"---"`, so the bad credential can only surface
later inside the retried call path. -/
theorem load_llm_missing_key_no_error :
    load_llm none none = .ok ⟨("---").data, ("llama3-8b-8192").data, 3 / 10, 512⟩ := by
  rfl

/-! ## Helper lemmas about stripping and blank-line splitting -/

/-- Right-stripping never lengthens a string. -/
theorem rstrip_length_le (s : Str) : (rstrip s).length ≤ s.length := by
  simp only [rstrip, List.length_reverse]
  calc (s.reverse.dropWhile isPySpace).length
      ≤ s.reverse.length := (List.dropWhile_sublist _).length_le
    _ = s.length := List.length_reverse _

/-- A string equal to its own strip starts with a non-space
character. -/
theorem pyStrip_head_not_space (c : Char) (t : Str) (h : pyStrip (c :: t) = c :: t) :
    isPySpace c = false := by
  by_contra hc
  rw [Bool.not_eq_false] at hc
  have h1 : pyStrip (c :: t) = rstrip (t.dropWhile isPySpace) := by
    simp [pyStrip, lstrip, List.dropWhile_cons_of_pos hc]
  have h2 : (pyStrip (c :: t)).length ≤ t.length := by
    rw [h1]
    exact le_trans (rstrip_length_le _) ((List.dropWhile_sublist _).length_le)
  rw [h] at h2
  simp at h2

/-- Stripping a string with a non-space head cannot empty it. -/
theorem pyStrip_cons_ne_nil (c : Char) (t : Str) (hc : isPySpace c = false) :
    pyStrip (c :: t) ≠ [] := by
  have hlc : lstrip (c :: t) = c :: t :=
    List.dropWhile_cons_of_neg (by simp [hc])
  simp only [pyStrip, hlc, rstrip]
  intro hcon
  rw [List.reverse_eq_nil_iff, List.dropWhile_eq_nil_iff] at hcon
  have := hcon c (by simp)
  rw [hc] at this
  exact Bool.false_ne_true this

/-- The blank-line split never yields an empty list of parts. -/
theorem splitNN_ne_nil : ∀ s : Str, splitNN s ≠ [] := by
  intro s
  match s with
  | [] => simp [splitNN]
  | [c] => simp [splitNN]
  | c :: d :: rest =>
    rw [splitNN]
    split
    · simp
    · rcases hsp : splitNN (d :: rest) with _ | ⟨p, ps⟩ <;> simp [hsp]

/-- When the first character is not a newline, the first part of the
blank-line split starts with it. -/
theorem splitNN_cons_of_ne (c : Char) (t : Str) (hc : c ≠ '\n') :
    ∃ p ps, splitNN (c :: t) = (c :: p) :: ps := by
  match t with
  | [] => exact ⟨[], [], by simp [splitNN]⟩
  | d :: rest =>
    rw [splitNN, if_neg (by simp [hc])]
    rcases hsp : splitNN (d :: rest) with _ | ⟨p, ps⟩
    · exact ⟨[], [], rfl⟩
    · exact ⟨p, ps, rfl⟩

/-- C6 amended: for every non-empty response with no leading or
trailing whitespace (all Model Client outputs are stripped), the
three-tier AdCopy fallback yields a record that is not entirely
empty, and its headline is non-empty whenever the labelled pass came
back entirely empty. -/
theorem ad_copy_parse_stripped_nonempty (response : Str) (hne : response ≠ [])
    (hst : pyStrip response = response) :
    ((ad_copy_parse response).headline ≠ [] ∨ (ad_copy_parse response).subtext ≠ [] ∨
      (ad_copy_parse response).cta ≠ []) ∧
    (ad_copy_labeled response = ⟨[], [], []⟩ → (ad_copy_parse response).headline ≠ []) := by
  obtain ⟨c, t, rfl⟩ : ∃ c t, response = c :: t := by
    cases response with
    | nil => exact absurd rfl hne
    | cons c t => exact ⟨c, t, rfl⟩
  have hc : isPySpace c = false := pyStrip_head_not_space c t hst
  have hcn : c ≠ '\n' := by
    intro h
    rw [h] at hc
    simp [isPySpace] at hc
  by_cases hall : (ad_copy_labeled (c :: t)).headline = [] ∧
      (ad_copy_labeled (c :: t)).subtext = [] ∧ (ad_copy_labeled (c :: t)).cta = []
  · obtain ⟨p, ps, hsp⟩ := splitNN_cons_of_ne c t hcn
    have hhead : (ad_copy_parse (c :: t)).headline ≠ [] := by
      simp only [ad_copy_parse]
      rw [if_pos hall]
      by_cases hlen : 3 ≤ (splitNN (c :: t)).length
      · rw [if_pos hlen, hsp]
        simp only [List.getD_cons_zero]
        exact pyStrip_cons_ne_nil c p hc
      · rw [if_neg hlen]
        simp
    exact ⟨Or.inl hhead, fun _ => hhead⟩
  · have hparse : ad_copy_parse (c :: t) = ad_copy_labeled (c :: t) := by
      simp only [ad_copy_parse]
      rw [if_neg hall]
    rw [hparse]
    constructor
    · by_contra hcon
      push_neg at hcon
      exact hall ⟨hcon.1, hcon.2.1, hcon.2.2⟩
    · intro h
      rw [h] at hall
      exact absurd ⟨rfl, rfl, rfl⟩ hall

/-- Witness for the amended C6 on the spec's own example input. -/
theorem ad_copy_parse_stripped_nonempty_witness :
    (((ad_copy_parse (("random unlabeled text").data)).headline ≠ [] ∨
      (ad_copy_parse (("random unlabeled text").data)).subtext ≠ [] ∨
      (ad_copy_parse (("random unlabeled text").data)).cta ≠ []) ∧
     (ad_copy_labeled (("random unlabeled text").data) = ⟨[], [], []⟩ →
      (ad_copy_parse (("random unlabeled text").data)).headline ≠ [])) :=
  ad_copy_parse_stripped_nonempty (("random unlabeled text").data) (by decide) (by decide)

/-- C6 counterexample: on the non-empty whitespace-only response of
four newlines the labelled pass fails, the blank-line split yields
three empty paragraphs, and the parser returns an entirely empty
record — so the claim as stated (over every non-empty response text)
is false. -/
theorem ad_copy_parse_whitespace_cex :
    (("\n\n\n\n").data ≠ ([] : Str)) ∧
    ad_copy_parse (("\n\n\n\n").data) = ⟨[], [], []⟩ := by
  exact ⟨by decide, rfl⟩

/-- The image-prompt line loop collected as a filter pipeline. -/
theorem image_fold_spec :
    ∀ (lines : List Str) (acc : List Str),
      lines.foldl imageLineStep acc =
        acc ++ ((((lines.map pyStrip).filter
            (fun l => !l.isEmpty && !((("#").data).isPrefixOf l))).map
          (fun l => pyStrip (pyLstripSet l bulletChars))).filter
          (fun cleaned => decide (10 < cleaned.length))) := by
  intro lines
  induction lines with
  | nil => intro acc; simp
  | cons l ls ih =>
    intro acc
    rw [List.foldl_cons, ih]
    simp only [List.map_cons, List.filter_cons]
    by_cases hb : (!(pyStrip l).isEmpty && !((("#").data).isPrefixOf (pyStrip l))) = true
    · rw [if_pos hb]
      simp only [List.map_cons, List.filter_cons]
      by_cases h2 : 10 < (pyStrip (pyLstripSet (pyStrip l) bulletChars)).length
      · simp [imageLineStep, hb, h2, List.append_assoc]
      · simp [imageLineStep, hb, h2]
    · rw [if_neg hb]
      have hb2 : (!(pyStrip l).isEmpty && !((("#").data).isPrefixOf (pyStrip l))) = false :=
        Bool.not_eq_true _ ▸ Bool.of_not_eq_true hb
      simp [imageLineStep, hb2]

/-- C7 amended: the ImagePrompts parser equals the spec-side filter
pipeline (with the source's cleaning character set: the nonzero
digits, dot, hyphen, the mojibake bullet characters and space), and
on the spec's concrete example returns exactly the two qualifying
lines with leading numbering stripped. -/
theorem image_prompts_parse_correct :
    (∀ response, image_prompts_parse response = image_prompts_spec response) ∧
    image_prompts_parse
        (("1. A red car on a beach\n2. ok\n#comment\n3. A blue car driving through mountains at sunset").data) =
      [("A red car on a beach").data,
       ("A blue car driving through mountains at sunset").data] := by
  constructor
  · intro response
    simp only [image_prompts_parse, image_prompts_spec]
    rw [image_fold_spec (splitNL response) []]
    simp only [List.nil_append]
    by_cases h : ((((splitNL response).map pyStrip).filter
        (fun l => !l.isEmpty && !((("#").data).isPrefixOf l))).map
      (fun l => pyStrip (pyLstripSet l bulletChars))).filter
      (fun cleaned => decide (10 < cleaned.length)) = []
    · rw [if_neg (by simpa using h), if_pos h]
    · rw [if_pos h, if_neg (by simpa using h)]
  · rfl

/-- C7 counterexample: a line whose numbering starts with the digit 0
keeps its leading `0. ` — the cleaning set contains only the nonzero
digits, so the claim's "strips leading digits" is false as stated. -/
theorem image_prompts_zero_digit_cex :
    image_prompts_parse (("0. A wonderful red car on the beach").data) =
      [("0. A wonderful red car on the beach").data] ∧
    image_prompts_parse (("0. A wonderful red car on the beach").data) ≠
      [("A wonderful red car on the beach").data] := by
  exact ⟨rfl, by decide⟩

/-- C8 amended: edit reconciliation tier order — for a structured
original, a response that parses as any well-formed JSON value is
returned parsed (no shape check); otherwise Ad Copy and Email
Creative Blocks go through their textual parsers; otherwise the raw
response is wrapped as `edited_content`; an unstructured (plain
string) original gets the raw response back unwrapped. -/
theorem edit_content_tiers (resp instr ct : Str) (bc : Option BrandContext)
    (k : Nat) (kvs : List (Str × Str)) (s : Str) :
    (∀ j, jsonLoads resp = some j →
      edit_content (fun _ _ => .ok resp) k (.dict kvs) instr ct bc = (.ok (.json j), k + 1)) ∧
    (jsonLoads resp = none →
      edit_content (fun _ _ => .ok resp) k (.dict kvs) instr (("Ad Copy").data) bc =
        (.ok (.adCopy (parse_ad_copy_from_text resp)), k + 1)) ∧
    (jsonLoads resp = none →
      edit_content (fun _ _ => .ok resp) k (.dict kvs) instr (("Email Creative Blocks").data) bc =
        (.ok (.email (parse_email_blocks_from_text resp)), k + 1)) ∧
    (jsonLoads resp = none → ct ≠ ("Ad Copy").data → ct ≠ ("Email Creative Blocks").data →
      edit_content (fun _ _ => .ok resp) k (.dict kvs) instr ct bc =
        (.ok (.wrapped resp), k + 1)) ∧
    edit_content (fun _ _ => .ok resp) k (.str s) instr ct bc = (.ok (.text resp), k + 1) := by
  refine ⟨?_, ?_, ?_, ?_, ?_⟩
  · intro j hj
    simp [edit_content, hj]
  · intro hj
    simp [edit_content, hj]
  · intro hj
    simp [edit_content, hj]
  · intro hj hca hce
    simp [edit_content, hj, hca, hce]
  · simp [edit_content]

/-- Witness for the amended C8 across the tiers at concrete inputs:
a JSON-array response is returned parsed, a labelled-text response is
routed to the AdCopy textual parser, an unparseable response for a
type without a textual parser is wrapped, and a plain-string original
gets the raw response back. -/
theorem edit_content_tiers_witness :
    edit_content (fun _ _ => .ok (("[1, 2]").data)) 0
        (.dict [((("headline").data), ("Old").data)]) (("funnier").data) (("Ad Copy").data) none =
      (.ok (.json (.arr [.num 1, .num 2])), 1) ∧
    edit_content (fun _ _ => .ok (("Headline: New stuff").data)) 0
        (.dict [((("headline").data), ("Old").data)]) (("funnier").data) (("Ad Copy").data) none =
      (.ok (.adCopy (parse_ad_copy_from_text (("Headline: New stuff").data))), 1) ∧
    edit_content (fun _ _ => .ok (("plain words").data)) 0
        (.dict [((("hook").data), ("Old").data)]) (("funnier").data) (("Video Scripts").data) none =
      (.ok (.wrapped (("plain words").data)), 1) ∧
    edit_content (fun _ _ => .ok (("new caption").data)) 0
        (.str (("old caption").data)) (("funnier").data) (("Social Media Captions").data) none =
      (.ok (.text (("new caption").data)), 1) :=
  ⟨(edit_content_tiers (("[1, 2]").data) (("funnier").data) (("Ad Copy").data) none 0
      [((("headline").data), ("Old").data)] []).1 (.arr [.num 1, .num 2]) rfl,
   (edit_content_tiers (("Headline: New stuff").data) (("funnier").data) (("Ad Copy").data) none 0
      [((("headline").data), ("Old").data)] []).2.1 rfl,
   (edit_content_tiers (("plain words").data) (("funnier").data) (("Video Scripts").data) none 0
      [((("hook").data), ("Old").data)] []).2.2.2.1 rfl (by decide) (by decide),
   (edit_content_tiers (("new caption").data) (("funnier").data) (("Social Media Captions").data) none 0
      [] (("old caption").data)).2.2.2.2⟩

/-- C8 counterexample: with a structured AdCopy original and the
response `42` — well-formed JSON that does not match the record's
shape — the code returns the parsed JSON number directly instead of
falling through to the AdCopy textual parser, so the claim's
"matching that shape" condition is false as stated. -/
theorem edit_content_json_shape_cex :
    edit_content (fun _ _ => .ok (("42").data)) 0
        (.dict [((("headline").data), ("Old").data)]) (("make it funnier").data)
        (("Ad Copy").data) none =
      (.ok (.json (.num 42)), 1) ∧
    EditResult.json (.num 42) ≠
      EditResult.adCopy (parse_ad_copy_from_text (("42").data)) := by
  exact ⟨rfl, fun h => EditResult.noConfusion h⟩

/-! ## Helper lemmas about exact-case replacement on
case-insensitively matched label lines -/

/-- A scan step of `pyReplace` that finds no occurrence at the head
passes the head character through. -/
theorem pyReplace_no_hit (w repl : Str) (c : Char) (rest : Str)
    (h : ¬ w <+: (c :: rest)) :
    pyReplace w repl (c :: rest) = c :: pyReplace w repl rest := by
  rw [pyReplace]
  rw [dif_neg]
  rintro ⟨-, hp⟩
  exact h (List.isPrefixOf_iff_prefix.mp hp)

/-- `pyReplace` leaves the first `n` characters untouched when no
occurrence of the needle starts among them. -/
theorem pyReplace_skip (w repl : Str) :
    ∀ (n : Nat) (l : Str), n ≤ l.length → (∀ m, m < n → ¬ w <+: l.drop m) →
      pyReplace w repl l = l.take n ++ pyReplace w repl (l.drop n) := by
  intro n
  induction n with
  | zero => intro l _ _; simp
  | succ n ih =>
    intro l hlen hm
    obtain ⟨c, rest, rfl⟩ : ∃ c rest, l = c :: rest := by
      cases l with
      | nil => simp at hlen
      | cons c rest => exact ⟨c, rest, rfl⟩
    rw [pyReplace_no_hit w repl c rest (by simpa using hm 0 (Nat.succ_pos n))]
    rw [ih rest (by simpa using hlen) (fun m hm2 => by simpa using hm (m + 1) (by omega))]
    simp

/-- A needle whose later characters all differ case-insensitively
from its first character cannot occur shifted inside the region where
the haystack matches it case-insensitively. -/
theorem no_shifted_occurrence (w l : Str) (h0 : 0 < w.length)
    (hd : ∀ i : Fin w.length, 0 < i.1 →
      Char.toLower (w.get i) ≠ Char.toLower (w.get ⟨0, h0⟩))
    (hci : lowerStr w <+: lowerStr l) (m : Nat) (hm0 : 0 < m) (hmw : m < w.length) :
    ¬ w <+: l.drop m := by
  intro hp
  have hwl : w.length ≤ l.length := by simpa [lowerStr] using hci.length_le
  have hml : m < l.length := lt_of_lt_of_le hmw hwl
  have e1 : l.get ⟨m, hml⟩ = w.get ⟨0, h0⟩ := by
    have h := hp.getElem (show 0 < w.length from h0)
    simp only [List.getElem_drop] at h
    simpa using h.symm
  have e2 : Char.toLower (l.get ⟨m, hml⟩) = Char.toLower (w.get ⟨m, hmw⟩) := by
    have hlen2 : m < (lowerStr w).length := by simpa [lowerStr] using hmw
    have h := hci.getElem hlen2
    simp only [lowerStr, List.getElem_map] at h
    simp only [List.get_eq_getElem]
    exact h.symm
  exact hd ⟨m, hmw⟩ hm0 (by rw [← e2, e1])

/-- Dropping while a predicate fails on every element is the
identity. -/
theorem dropWhile_all_neg {p : Char → Bool} :
    ∀ u : Str, (∀ x ∈ u, p x = false) → u.dropWhile p = u := by
  intro u h
  cases u with
  | nil => rfl
  | cons c t => exact List.dropWhile_cons_of_neg (by simp [h c (by simp)])

/-- Stripping preserves a non-empty all-non-space leading block. -/
theorem pyStrip_append_keep (a b : Str) (ha : a ≠ [])
    (hns : ∀ c ∈ a, isPySpace c = false) :
    a <+: pyStrip (a ++ b) := by
  obtain ⟨c, a2, rfl⟩ : ∃ c a2, a = c :: a2 := by
    cases a with
    | nil => exact absurd rfl ha
    | cons c a2 => exact ⟨c, a2, rfl⟩
  have hl : lstrip ((c :: a2) ++ b) = (c :: a2) ++ b := by
    simp only [lstrip, List.cons_append]
    exact List.dropWhile_cons_of_neg (by simp [hns c (by simp)])
  simp only [pyStrip, hl, rstrip, List.reverse_append]
  rw [List.dropWhile_append]
  split
  · rw [dropWhile_all_neg ((c :: a2).reverse) (fun x hx => hns x (by rw [List.mem_reverse] at hx; exact hx))]
    simp
  · rw [List.reverse_append]
    exact ⟨(b.reverse.dropWhile isPySpace).reverse, by simp⟩

/-- Space characters are toLower-fixed. -/
theorem isPySpace_toLower (c : Char) (h : isPySpace c = true) : Char.toLower c = c := by
  simp only [isPySpace, Bool.or_eq_true, decide_eq_true_eq] at h
  rcases h with ((((h | h) | h) | h) | h) | h <;> subst h <;> decide

/-- Core of C10: removing the exact-case label from a line that
matches it only case-insensitively leaves the line's own leading
label text in place, and the final strip keeps it. -/
theorem label_value_keep (w l : Str) (h0 : 0 < w.length)
    (hd : ∀ i : Fin w.length, 0 < i.1 →
      Char.toLower (w.get i) ≠ Char.toLower (w.get ⟨0, h0⟩))
    (hlow : ∀ c ∈ lowerStr w, isPySpace c = false)
    (hci : lowerStr w <+: lowerStr l) (hne : ¬ w <+: l) :
    l.take w.length <+: pyStrip (pyReplace w [] l) := by
  have hwl : w.length ≤ l.length := by simpa [lowerStr] using hci.length_le
  have hskip : ∀ m, m < w.length → ¬ w <+: l.drop m := by
    intro m hm
    rcases Nat.eq_zero_or_pos m with h | h
    · subst h; simpa using hne
    · exact no_shifted_occurrence w l h0 hd hci m h hm
  rw [pyReplace_skip w [] w.length l hwl hskip]
  have htake : (l.take w.length).map Char.toLower = lowerStr w := by
    have h := List.prefix_iff_eq_take.mp hci
    simp only [lowerStr, List.length_map] at h
    rw [← List.map_take] at h
    exact h.symm
  have hns : ∀ c ∈ l.take w.length, isPySpace c = false := by
    intro c hc
    by_contra hsp
    rw [Bool.not_eq_false] at hsp
    have hmem : Char.toLower c ∈ lowerStr w := by
      rw [← htake]
      exact List.mem_map_of_mem Char.toLower hc
    have hlow2 := hlow (Char.toLower c) hmem
    rw [isPySpace_toLower c hsp] at hlow2
    rw [hsp] at hlow2
    exact absurd hlow2 (by decide)
  have hta : l.take w.length ≠ [] := by
    intro hcon
    have hz : (l.take w.length).length = 0 := by rw [hcon]; rfl
    rw [List.length_take, Nat.min_eq_left hwl] at hz
    omega
  exact pyStrip_append_keep (l.take w.length) (pyReplace w [] (l.drop w.length)) hta hns

/-- The head of a string with a non-empty prefix is the prefix's
head. -/
theorem head_of_pre {p x : Str} (h : p <+: x) (hpne : p ≠ []) : x.head? = p.head? := by
  obtain ⟨t, rfl⟩ := h
  cases p with
  | nil => exact absurd rfl hpne
  | cons c cs => rfl

/-- Two labels with different first characters cannot both prefix the
same line, so an earlier branch's test is false. -/
theorem pre_false_of_other {p q x : Str} (hq : q.isPrefixOf x = true)
    (hpq : p.head? ≠ q.head?) (hpne : p ≠ []) (hqne : q ≠ []) :
    p.isPrefixOf x = false := by
  by_contra h
  rw [Bool.not_eq_false, List.isPrefixOf_iff_prefix] at h
  rw [List.isPrefixOf_iff_prefix] at hq
  exact hpq ((head_of_pre h hpne).symm.trans (head_of_pre hq hqne))

/-- A newline-free string is a single line. -/
theorem splitNL_single : ∀ l : Str, '\n' ∉ l → splitNL l = [l] := by
  intro l
  induction l with
  | nil => intro _; rfl
  | cons c t ih =>
    intro h
    simp only [List.mem_cons, not_or] at h
    simp only [splitNL, splitOnChar] at ih ⊢
    rw [if_neg (fun he => h.1 he.symm)]
    rw [ih h.2]

/-- C10: in the AdCopy and Email labelled-line parsers a label line
is recognized case-insensitively, but only the exact-case label
string is removed from the value — for every single-line text whose
label appears in any other casing, the stored field value still
begins with the label text exactly as written in the line. -/
theorem label_casing_keeps_label :
    (∀ l : Str, '\n' ∉ l →
      (("headline:").data).isPrefixOf (lowerStr (pyStrip l)) = true →
      ¬ (("Headline:").data <+: pyStrip l) →
      (pyStrip l).take 9 <+: (parse_ad_copy_from_text l).headline) ∧
    (∀ l : Str, '\n' ∉ l →
      (("subtext:").data).isPrefixOf (lowerStr (pyStrip l)) = true →
      ¬ (("Subtext:").data <+: pyStrip l) →
      (pyStrip l).take 8 <+: (parse_ad_copy_from_text l).subtext) ∧
    (∀ l : Str, '\n' ∉ l →
      (("cta:").data).isPrefixOf (lowerStr (pyStrip l)) = true →
      ¬ (("CTA:").data <+: pyStrip l) →
      (pyStrip l).take 4 <+: (parse_ad_copy_from_text l).cta) ∧
    (∀ l : Str, '\n' ∉ l →
      (("subject:").data).isPrefixOf (lowerStr (pyStrip l)) = true →
      ¬ (("Subject:").data <+: pyStrip l) →
      (pyStrip l).take 8 <+: (email_parse l).subject_line) ∧
    (∀ l : Str, '\n' ∉ l →
      (("header:").data).isPrefixOf (lowerStr (pyStrip l)) = true →
      ¬ (("Header:").data <+: pyStrip l) →
      (pyStrip l).take 7 <+: (email_parse l).header) ∧
    (∀ l : Str, '\n' ∉ l →
      (("product:").data).isPrefixOf (lowerStr (pyStrip l)) = true →
      ¬ (("Product:").data <+: pyStrip l) →
      (pyStrip l).take 8 <+: (email_parse l).product_blurb) := by
  refine ⟨?_, ?_, ?_, ?_, ?_, ?_⟩
  · intro l hnl hci hne
    have hci2 : lowerStr (("Headline:").data) <+: lowerStr (pyStrip l) := by
      rw [show lowerStr (("Headline:").data) = ("headline:").data from by decide]
      exact List.isPrefixOf_iff_prefix.mp hci
    have hres := label_value_keep (("Headline:").data) (pyStrip l) (by decide)
      (by decide) (by decide) hci2 hne
    simp only [parse_ad_copy_from_text, splitNL_single l hnl, List.foldl_cons,
      List.foldl_nil, adFromTextStep]
    rw [if_pos hci]
    exact hres
  · intro l hnl hci hne
    have hf1 : (("headline:").data).isPrefixOf (lowerStr (pyStrip l)) = false :=
      pre_false_of_other hci (by decide) (by decide) (by decide)
    have hci2 : lowerStr (("Subtext:").data) <+: lowerStr (pyStrip l) := by
      rw [show lowerStr (("Subtext:").data) = ("subtext:").data from by decide]
      exact List.isPrefixOf_iff_prefix.mp hci
    have hres := label_value_keep (("Subtext:").data) (pyStrip l) (by decide)
      (by decide) (by decide) hci2 hne
    simp only [parse_ad_copy_from_text, splitNL_single l hnl, List.foldl_cons,
      List.foldl_nil, adFromTextStep]
    rw [if_neg (by simp [hf1]), if_pos hci]
    exact hres
  · intro l hnl hci hne
    have hf1 : (("headline:").data).isPrefixOf (lowerStr (pyStrip l)) = false :=
      pre_false_of_other hci (by decide) (by decide) (by decide)
    have hf2 : (("subtext:").data).isPrefixOf (lowerStr (pyStrip l)) = false :=
      pre_false_of_other hci (by decide) (by decide) (by decide)
    have hci2 : lowerStr (("CTA:").data) <+: lowerStr (pyStrip l) := by
      rw [show lowerStr (("CTA:").data) = ("cta:").data from by decide]
      exact List.isPrefixOf_iff_prefix.mp hci
    have hres := label_value_keep (("CTA:").data) (pyStrip l) (by decide)
      (by decide) (by decide) hci2 hne
    simp only [parse_ad_copy_from_text, splitNL_single l hnl, List.foldl_cons,
      List.foldl_nil, adFromTextStep]
    rw [if_neg (by simp [hf1]), if_neg (by simp [hf2]), if_pos hci]
    exact hres
  · intro l hnl hci hne
    have hci2 : lowerStr (("Subject:").data) <+: lowerStr (pyStrip l) := by
      rw [show lowerStr (("Subject:").data) = ("subject:").data from by decide]
      exact List.isPrefixOf_iff_prefix.mp hci
    have hres := label_value_keep (("Subject:").data) (pyStrip l) (by decide)
      (by decide) (by decide) hci2 hne
    simp only [email_parse, splitNL_single l hnl, List.foldl_cons,
      List.foldl_nil, emailUpdate]
    rw [if_pos hci]
    exact hres
  · intro l hnl hci hne
    have hf1 : (("subject:").data).isPrefixOf (lowerStr (pyStrip l)) = false :=
      pre_false_of_other hci (by decide) (by decide) (by decide)
    have hci2 : lowerStr (("Header:").data) <+: lowerStr (pyStrip l) := by
      rw [show lowerStr (("Header:").data) = ("header:").data from by decide]
      exact List.isPrefixOf_iff_prefix.mp hci
    have hres := label_value_keep (("Header:").data) (pyStrip l) (by decide)
      (by decide) (by decide) hci2 hne
    simp only [email_parse, splitNL_single l hnl, List.foldl_cons,
      List.foldl_nil, emailUpdate]
    rw [if_neg (by simp [hf1]), if_pos hci]
    exact hres
  · intro l hnl hci hne
    have hf1 : (("subject:").data).isPrefixOf (lowerStr (pyStrip l)) = false :=
      pre_false_of_other hci (by decide) (by decide) (by decide)
    have hf2 : (("header:").data).isPrefixOf (lowerStr (pyStrip l)) = false :=
      pre_false_of_other hci (by decide) (by decide) (by decide)
    have hci2 : lowerStr (("Product:").data) <+: lowerStr (pyStrip l) := by
      rw [show lowerStr (("Product:").data) = ("product:").data from by decide]
      exact List.isPrefixOf_iff_prefix.mp hci
    have hres := label_value_keep (("Product:").data) (pyStrip l) (by decide)
      (by decide) (by decide) hci2 hne
    simp only [email_parse, splitNL_single l hnl, List.foldl_cons,
      List.foldl_nil, emailUpdate]
    rw [if_neg (by simp [hf1]), if_neg (by simp [hf2]), if_pos hci]
    exact hres

/-- Witness for C10 at six concrete differently-cased label lines. -/
theorem label_casing_keeps_label_witness :
    ((pyStrip (("hEADLINE: Big Sale").data)).take 9 <+:
      (parse_ad_copy_from_text (("hEADLINE: Big Sale").data)).headline) ∧
    ((pyStrip (("SUBTEXT: very nice thing").data)).take 8 <+:
      (parse_ad_copy_from_text (("SUBTEXT: very nice thing").data)).subtext) ∧
    ((pyStrip (("cta: Go now").data)).take 4 <+:
      (parse_ad_copy_from_text (("cta: Go now").data)).cta) ∧
    ((pyStrip (("SUBJECT: Hello there").data)).take 8 <+:
      (email_parse (("SUBJECT: Hello there").data)).subject_line) ∧
    ((pyStrip (("HEADER: Welcome friend").data)).take 7 <+:
      (email_parse (("HEADER: Welcome friend").data)).header) ∧
    ((pyStrip (("pRoduct: A fine tea").data)).take 8 <+:
      (email_parse (("pRoduct: A fine tea").data)).product_blurb) :=
  ⟨label_casing_keeps_label.1 (("hEADLINE: Big Sale").data) (by decide) (by decide) (by decide),
   label_casing_keeps_label.2.1 (("SUBTEXT: very nice thing").data) (by decide) (by decide) (by decide),
   label_casing_keeps_label.2.2.1 (("cta: Go now").data) (by decide) (by decide) (by decide),
   label_casing_keeps_label.2.2.2.1 (("SUBJECT: Hello there").data) (by decide) (by decide) (by decide),
   label_casing_keeps_label.2.2.2.2.1 (("HEADER: Welcome friend").data) (by decide) (by decide) (by decide),
   label_casing_keeps_label.2.2.2.2.2 (("pRoduct: A fine tea").data) (by decide) (by decide) (by decide)⟩

end ContentGen
